import Mathlib

/-!
Shallow embedding of `src/jasmin/queues/factory.py` (class `AmqpFactory`).

The factory is a Twisted `ClientFactory` managing a connection to an AMQP
broker.  Its mutable attributes become fields of a Lean structure; each
method becomes a pure function from the factory state to a new state,
together with the list of external calls it performs (network operations)
and, where the Python code can raise, an `Except` capturing the Python
exception (`AttributeError` on a missing attribute or an attribute of
`None`/`False`, `AlreadyCalledError` on firing a Twisted deferred twice).

Deferreds are modelled by their observable state: `pending`, `called`
(callback fired) or `failed reason` (errback fired); the Twisted
`Deferred.called` flag is true in both of the latter cases.  Attributes that
`__init__` does not set (`retries`, `exitDeferred`, `connectDeferred`)
are `Option`-valued: `none` means the attribute does not exist and
reading it raises `AttributeError`.  `channelReady` can hold Python
`None` (from `__init__`), Python `False` (set by `disconnect`) or a
deferred, so it gets its own four-valued type.  The reconnect timer is
the `IDelayedCall` returned by `reactor.callLater`: its scheduled delay
and its `active()` flag.  External collaborators (`reactor.connectTCP`,
`connector.connect`, `client.close`, `chan.queue_declare`,
`chan.basic_publish`) are recorded as emitted actions, never simulated.
-/

namespace JasminQueues

/-- Python attribute names whose access can raise `AttributeError`. -/
inductive PyAttr
  | connectDeferred
  | retries
  | exitDeferred
  | chan
  | callback
  deriving DecidableEq, Repr

/-- Python exceptions the embedded methods can raise. -/
inductive PyError
  | attributeError (a : PyAttr)
  | alreadyCalledError
  deriving DecidableEq, Repr

/-- Observable state of a Twisted deferred. -/
inductive DeferredState
  | pending
  | called
  | failed (reason : String)
  deriving DecidableEq, Repr

/-- The Twisted `Deferred.called` flag: true once callback or errback fired. -/
def DeferredState.isCalled : DeferredState → Bool
  | .pending => false
  | .called => true
  | .failed _ => true

/-- The value of `self.channelReady`: `None` from `__init__`, a deferred
from `preConnect`, or Python `False` set by `disconnect`. -/
inductive ChannelReadySlot
  | pynone
  | pyfalse
  | deferredPending
  | deferredCalled
  deriving DecidableEq, Repr

/-- The `IDelayedCall` returned by `reactor.callLater(delay, reConnect, connector)`. -/
structure DelayedCall where
  active : Bool
  delay : Nat
  deriving DecidableEq, Repr

/-- The configuration attributes the factory reads (beyond logging and
transport endpoints, which are opaque to the state machine). -/
structure Config where
  reconnectOnConnectionFailureDelay : Nat
  deriving DecidableEq, Repr

/-- External calls a method performs, in order. -/
inductive NetAction
  | connectTCP
  | connectorConnect
  | clientClose
  | channel_open
  | queue_declare (queue : String)
  | basic_publish
  deriving DecidableEq, Repr

/-- The mutable state of an `AmqpFactory` instance.  `client` and `chan`
record whether the protocol instance and the channel object are set
(they are opaque handles; only their presence matters). -/
structure AmqpFactory where
  config : Config
  reconnectTimer : Option DelayedCall
  connectionRetry : Bool
  connected : Bool
  channelReady : ChannelReadySlot
  client : Bool
  chan : Bool
  queues : List String
  exitDeferred : Option DeferredState
  connectDeferred : Option DeferredState
  retries : Option Nat
  deriving DecidableEq, Repr

namespace AmqpFactory

/-- `AmqpFactory.__init__(self, config)`.  Note that neither `retries`
nor `exitDeferred` nor `connectDeferred` is assigned here. -/
def init (config : Config) : AmqpFactory :=
  { config := config
    reconnectTimer := none
    connectionRetry := true
    connected := false
    channelReady := .pynone
    client := false
    chan := false
    queues := []
    exitDeferred := none
    connectDeferred := none
    retries := none }

/-- `AmqpFactory.MAX_RETRIES`, a class attribute (not a config option). -/
def MAX_RETRIES : Nat := 5

/-- `if self.reconnectTimer and self.reconnectTimer.active():` —
`None` is falsy, a timer object is truthy. -/
def timerActive : Option DelayedCall → Bool
  | some c => c.active
  | none => false

/-- `AmqpFactory.preConnect`: set `connectionRetry`, arm a fresh
`exitDeferred`, arm `channelReady` only when it is `None`, and arm a
fresh `connectDeferred` when it is missing or already called. -/
def preConnect (s : AmqpFactory) : AmqpFactory :=
  let s1 := { s with connectionRetry := true, exitDeferred := some .pending }
  let s2 :=
    match s1.channelReady with
    | .pynone => { s1 with channelReady := .deferredPending }
    | _ => s1
  match s2.connectDeferred with
  | none => { s2 with connectDeferred := some .pending }
  | some d =>
      if d.isCalled then { s2 with connectDeferred := some .pending } else s2

/-- `AmqpFactory.clientConnectionFailed(self, connector, reason)`. -/
def clientConnectionFailed (s : AmqpFactory) (reason : String) :
    Except PyError AmqpFactory :=
  let s := { s with connected := false }
  if timerActive s.reconnectTimer then
    .ok s
  else
    match s.retries with
    | none => .error (.attributeError .retries)
    | some r0 =>
        let r := r0 + 1
        let s := { s with retries := some r }
        if MAX_RETRIES ≤ r then
          match s.connectDeferred with
          | none => .error (.attributeError .connectDeferred)
          | some d =>
              if d.isCalled then
                .error .alreadyCalledError
              else
                let s := { s with connectDeferred := some (.failed reason) }
                match s.exitDeferred with
                | none => .error (.attributeError .exitDeferred)
                | some e =>
                    if e.isCalled then
                      .error .alreadyCalledError
                    else
                      .ok { s with exitDeferred := some .called }
        else
          let delay := 2 ^ r * s.config.reconnectOnConnectionFailureDelay
          .ok { s with reconnectTimer := some { active := true, delay := delay } }

/-- `AmqpFactory.reConnect(self, connector=None)`: with a connector,
call `preConnect` then `connector.connect()`; with `None`, only log. -/
def reConnect (s : AmqpFactory) (hasConnector : Bool) :
    AmqpFactory × List NetAction :=
  if hasConnector then (preConnect s, [.connectorConnect]) else (s, [])

def leadsWith : List Char → List Char → Bool
  | [], _ => true
  | _ :: _, [] => false
  | p :: ps, c :: cs => p == c && leadsWith ps cs

def occursIn (pat : List Char) : List Char → Bool
  | [] => leadsWith pat []
  | c :: cs => leadsWith pat (c :: cs) || occursIn pat cs

/-- The source test `Connection was closed cleanly. in str(reason)`:
substring containment of the clean-close message in the reason text. -/
def closedCleanly (reason : String) : Bool :=
  occursIn "Connection was closed cleanly.".data reason.data

/-- `AmqpFactory.clientConnectionLost(self, connector, reason)`. -/
def clientConnectionLost (s : AmqpFactory) (hasConnector : Bool)
    (reason : String) : Except PyError (AmqpFactory × List NetAction) :=
  if ¬ closedCleanly reason then
    let s := { s with connected := false }
    .ok (reConnect s hasConnector)
  else
    let s := { s with connected := false }
    match s.exitDeferred with
    | none => .error (.attributeError .exitDeferred)
    | some e =>
        if e.isCalled then .error .alreadyCalledError
        else .ok ({ s with exitDeferred := some .called }, [])

/-- `AmqpFactory._connect`: `reactor.connectTCP` is issued, then the
local `connect_deferred` is resolved with the value
`lambda _: self.preConnect()` — the lambda is never invoked, so the
factory state is unchanged. -/
def connectInternal (s : AmqpFactory) : AmqpFactory × List NetAction :=
  (s, [.connectTCP])

/-- `AmqpFactory.connect`: run `_connect`, then return
`self.connectDeferred` — which raises `AttributeError` when `preConnect`
has never created it. -/
def connect (s : AmqpFactory) :
    Except PyError (AmqpFactory × List NetAction × DeferredState) :=
  let (s1, acts) := connectInternal s
  match s1.connectDeferred with
  | none => .error (.attributeError .connectDeferred)
  | some d => .ok (s1, acts, d)

/-- `AmqpFactory._got_channel(self, chan)`: store the channel, reset
`self.queues = []`, then issue `chan.channel_open()`. -/
def got_channel (s : AmqpFactory) : AmqpFactory × List NetAction :=
  ({ s with chan := true, queues := [] }, [.channel_open])

/-- `AmqpFactory._channel_open(self, arg)`: set `connected` and fire
`self.channelReady.callback(self)`.  On `None` or `False` this raises
`AttributeError` (no `.callback`); on an already-called deferred it
raises `AlreadyCalledError`. -/
def channel_open (s : AmqpFactory) : Except PyError AmqpFactory :=
  let s := { s with connected := true }
  match s.channelReady with
  | .pynone => .error (.attributeError .callback)
  | .pyfalse => .error (.attributeError .callback)
  | .deferredCalled => .error .alreadyCalledError
  | .deferredPending => .ok { s with channelReady := .deferredCalled }

/-- `AmqpFactory.disconnect(self, reason=None)`: set
`self.channelReady = False`, and close the client when one exists. -/
def disconnect (s : AmqpFactory) : AmqpFactory × List NetAction :=
  let s := { s with channelReady := .pyfalse }
  if s.client then (s, [.clientClose]) else (s, [])

/-- Result of `named_queue_declare`, distinguishing the three source
branches (the first two both `return None` in Python, told apart by
their log lines). -/
inductive DeclareResult
  | notConnected
  | alreadyDeclared
  | declared
  deriving DecidableEq, Repr

/-- `AmqpFactory.named_queue_declare(self, *args, **keys)`. -/
def named_queue_declare (s : AmqpFactory) (queue : String) :
    Except PyError (AmqpFactory × List NetAction × DeclareResult) :=
  if ¬ s.connected then
    .ok (s, [], .notConnected)
  else if s.queues.contains queue then
    .ok (s, [], .alreadyDeclared)
  else if ¬ s.chan then
    .error (.attributeError .chan)
  else
    .ok (s, [.queue_declare queue], .declared)

/-- `AmqpFactory._queue_declared(self, queue)`: the confirmation
callback appends the declared queue name to `self.queues`. -/
def queue_declared (s : AmqpFactory) (queue : String) : AmqpFactory :=
  { s with queues := s.queues ++ [queue] }

/-- Result of `publish`. -/
inductive PublishResult
  | notConnected
  | published
  deriving DecidableEq, Repr

/-- `AmqpFactory.publish(self, **args)`. -/
def publish (s : AmqpFactory) :
    Except PyError (AmqpFactory × List NetAction × PublishResult) :=
  if ¬ s.connected then
    .ok (s, [], .notConnected)
  else if ¬ s.chan then
    .error (.attributeError .chan)
  else
    .ok (s, [.basic_publish], .published)

/-- `AmqpFactory.stopConnectionRetrying`: cancel an active reconnect
timer and clear the `connectionRetry` flag. -/
def stopConnectionRetrying (s : AmqpFactory) : AmqpFactory :=
  let s :=
    if timerActive s.reconnectTimer then { s with reconnectTimer := none }
    else s
  { s with connectionRetry := false }

/-- `AmqpFactory.disconnectAndDontRetryToConnect`. -/
def disconnectAndDontRetryToConnect (s : AmqpFactory) :
    AmqpFactory × List NetAction :=
  disconnect (stopConnectionRetrying s)

end AmqpFactory

end JasminQueues

namespace JasminQueues

open AmqpFactory

/-! ### Helper lemmas about `preConnect` and `disconnect`

`preConnect` only touches `connectionRetry`, `exitDeferred`,
`channelReady` and `connectDeferred`; in particular it never resets the
retry counter, the reconnect timer or the queue registry. -/

theorem preConnect_retries (s : AmqpFactory) :
    (preConnect s).retries = s.retries := by
  obtain ⟨cfg, rt, cr, cn, ch, cl, chn, qs, ed, cd, rs⟩ := s
  cases ch <;> cases cd <;> try rfl
  all_goals (rename_i d; cases d <;> rfl)

theorem preConnect_reconnectTimer (s : AmqpFactory) :
    (preConnect s).reconnectTimer = s.reconnectTimer := by
  obtain ⟨cfg, rt, cr, cn, ch, cl, chn, qs, ed, cd, rs⟩ := s
  cases ch <;> cases cd <;> try rfl
  all_goals (rename_i d; cases d <;> rfl)

theorem preConnect_queues (s : AmqpFactory) :
    (preConnect s).queues = s.queues := by
  obtain ⟨cfg, rt, cr, cn, ch, cl, chn, qs, ed, cd, rs⟩ := s
  cases ch <;> cases cd <;> try rfl
  all_goals (rename_i d; cases d <;> rfl)

theorem preConnect_connectionRetry (s : AmqpFactory) :
    (preConnect s).connectionRetry = true := by
  obtain ⟨cfg, rt, cr, cn, ch, cl, chn, qs, ed, cd, rs⟩ := s
  cases ch <;> cases cd <;> try rfl
  all_goals (rename_i d; cases d <;> rfl)

theorem disconnect_fst (s : AmqpFactory) :
    (disconnect s).1 = { s with channelReady := .pyfalse } := by
  unfold disconnect
  cases h : s.client <;> simp [h]

/-! ### Example configuration and states used as concrete inputs -/

/-- A configuration with `reconnectOnConnectionFailureDelay = 1` second,
matching the `baseDelay = 1s` scenario of the specification. -/
def cfg1 : Config := { reconnectOnConnectionFailureDelay := 1 }

/-- C10: calling `connect()` on a freshly constructed factory raises
`AttributeError`: `_connect` resolves its local deferred with the value
`lambda _: self.preConnect()` without ever invoking it, so it leaves the
factory state unchanged (first conjunct) and `self.connectDeferred` is
never created before `connect` returns it (second conjunct). -/
theorem c10_connect_without_preConnect_raises (cfg : Config) :
    connectInternal (AmqpFactory.init cfg) = (AmqpFactory.init cfg, [.connectTCP]) ∧
    connect (AmqpFactory.init cfg) = .error (.attributeError .connectDeferred) :=
  ⟨rfl, rfl⟩

/-- C5: while `connected` is false, `named_queue_declare` and `publish`
both return `None` synchronously (the result is `.ok`, so no exception
escapes), perform no network call (empty action list) and leave the
state unchanged. -/
theorem c5_not_connected_guard (s : AmqpFactory) (q : String)
    (h : s.connected = false) :
    named_queue_declare s q = .ok (s, [], .notConnected) ∧
    publish s = .ok (s, [], .notConnected) := by
  constructor
  · simp [named_queue_declare, h]
  · simp [publish, h]

/-- C5 witness: a factory in the middle of a connection attempt
(`connected = false`), on which `declareQueue` and `publish` are
exercised with queue `billing`. -/
def c5State : AmqpFactory :=
  { AmqpFactory.init cfg1 with
    retries := some 1
    exitDeferred := some .pending
    connectDeferred := some .pending }

theorem c5_not_connected_guard_witness :
    named_queue_declare c5State "billing" = .ok (c5State, [], .notConnected) ∧
    publish c5State = .ok (c5State, [], .notConnected) :=
  c5_not_connected_guard c5State "billing" rfl

/-- C6: with the factory Ready (`connected`, a channel present) and `q`
not yet declared, the first `named_queue_declare` issues exactly one
`queue_declare` network call; after the broker confirmation
(`_queue_declared` appends `q` to `self.queues`), a second call for the
same name returns the already-declared result with no network call and
no state change. -/
theorem c6_declare_idempotent_after_confirmation (s : AmqpFactory) (q : String)
    (hc : s.connected = true) (hch : s.chan = true)
    (hq : q ∉ s.queues) :
    named_queue_declare s q = .ok (s, [.queue_declare q], .declared) ∧
    named_queue_declare (queue_declared s q) q =
      .ok (queue_declared s q, [], .alreadyDeclared) := by
  constructor
  · simp [named_queue_declare, hc, hch, hq]
  · simp [named_queue_declare, queue_declared, hc, hq]

/-- C6 witness: a Ready factory with an empty registry, declaring the
queue `orders` twice. -/
def c6State : AmqpFactory :=
  { AmqpFactory.init cfg1 with
    connected := true
    chan := true
    channelReady := .deferredCalled
    retries := some 0
    exitDeferred := some .pending
    connectDeferred := some .called }

theorem c6_declare_idempotent_after_confirmation_witness :
    named_queue_declare c6State "orders" =
      .ok (c6State, [.queue_declare "orders"], .declared) ∧
    named_queue_declare (queue_declared c6State "orders") "orders" =
      .ok (queue_declared c6State "orders", [], .alreadyDeclared) :=
  c6_declare_idempotent_after_confirmation c6State "orders" rfl rfl (by decide)


/-! ### C1: exponential backoff -/

/-- C1 state for the counterexample and witness: a factory that has seen
no failure yet (`retries = 0`), with no pending timer, base delay 1. -/
def c1State : AmqpFactory :=
  { AmqpFactory.init cfg1 with
    retries := some 0
    exitDeferred := some .pending
    connectDeferred := some .pending }

/-- C1 counterexample: with `k = 0` failures observed before the call
(`retries = 0`, `k < MAX_RETRIES`) and no pending timer, the handler
schedules a timer with delay `2` seconds, not
`baseDelay * 2 ^ 0 = 1` as the claim states: the source increments
`self.retries` before computing `delay = 2 ** self.retries * baseDelay`,
so the first delay is `2 * baseDelay`. -/
theorem c1_first_backoff_delay_cex :
    clientConnectionFailed c1State "Connection refused" =
      .ok { c1State with
            connected := false
            retries := some 1
            reconnectTimer := some { active := true, delay := 2 } } ∧
    (2 : Nat) ≠ cfg1.reconnectOnConnectionFailureDelay * 2 ^ 0 :=
  ⟨rfl, by decide⟩

/-- C1 amended: for every failure count `k` with `k + 1 < MAX_RETRIES`,
when `clientConnectionFailed` runs with no reconnect timer pending it
schedules a reconnect timer with delay
`2 ^ (k + 1) * baseDelay` — the exponent is the new counter value
`k + 1`, not `k`, so with `baseDelay = 1s` the successive delays are
2, 4, 8, 16 seconds — and the ExitSignal deferred is left untouched
(second conjunct). -/
theorem c1_backoff_schedules_timer (s : AmqpFactory) (k : Nat) (reason : String)
    (hk : s.retries = some k) (hlt : k + 1 < MAX_RETRIES)
    (ht : timerActive s.reconnectTimer = false) :
    clientConnectionFailed s reason =
      .ok { s with
            connected := false
            retries := some (k + 1)
            reconnectTimer := some
              { active := true
                delay := 2 ^ (k + 1) * s.config.reconnectOnConnectionFailureDelay } } ∧
    Except.map (fun t => t.exitDeferred) (clientConnectionFailed s reason) =
      .ok s.exitDeferred := by
  have h1 : clientConnectionFailed s reason =
      .ok { s with
            connected := false
            retries := some (k + 1)
            reconnectTimer := some
              { active := true
                delay := 2 ^ (k + 1) * s.config.reconnectOnConnectionFailureDelay } } := by
    simp [clientConnectionFailed, ht, hk]
    omega
  exact ⟨h1, by rw [h1]; rfl⟩

/-- C1 witness: the amended backoff theorem applied at `c1State`
(`k = 0`): the scheduled delay is `2 ^ 1 * 1 = 2` seconds. -/
theorem c1_backoff_schedules_timer_witness :
    clientConnectionFailed c1State "Connection refused" =
      .ok { c1State with
            connected := false
            retries := some (0 + 1)
            reconnectTimer := some
              { active := true
                delay := 2 ^ (0 + 1) * c1State.config.reconnectOnConnectionFailureDelay } } ∧
    Except.map (fun t => t.exitDeferred) (clientConnectionFailed c1State "Connection refused") =
      .ok c1State.exitDeferred :=
  c1_backoff_schedules_timer c1State 0 "Connection refused" rfl (by decide) rfl

/-! ### C2: retries exhausted -/

/-- C2: when the incremented failure count reaches `MAX_RETRIES` (and no
timer is pending, the connect deferred is still pending and the exit
deferred is still pending), the handler rejects the connect deferred
with the failure reason, resolves the exit deferred (a transition from
pending to called — it resolves exactly once) and schedules no reconnect
timer: the resulting state carries `reconnectTimer` unchanged (second
conjunct), so recovery requires a new `connect()`. -/
theorem c2_retries_exhausted_terminal (s : AmqpFactory) (k : Nat) (reason : String)
    (hk : s.retries = some k) (hge : MAX_RETRIES ≤ k + 1)
    (ht : timerActive s.reconnectTimer = false)
    (hc : s.connectDeferred = some .pending)
    (he : s.exitDeferred = some .pending) :
    clientConnectionFailed s reason =
      .ok { s with
            connected := false
            retries := some (k + 1)
            connectDeferred := some (.failed reason)
            exitDeferred := some .called } ∧
    Except.map (fun t => t.reconnectTimer) (clientConnectionFailed s reason) =
      .ok s.reconnectTimer := by
  have h1 : clientConnectionFailed s reason =
      .ok { s with
            connected := false
            retries := some (k + 1)
            connectDeferred := some (.failed reason)
            exitDeferred := some .called } := by
    simp [clientConnectionFailed, ht, hk, hc, he, hge, DeferredState.isCalled]
  exact ⟨h1, by rw [h1]; rfl⟩

/-- C2 state for the witness: four failures already counted, so the
fifth failure reaches `MAX_RETRIES = 5`. -/
def c2State : AmqpFactory :=
  { AmqpFactory.init cfg1 with
    retries := some 4
    exitDeferred := some .pending
    connectDeferred := some .pending }

theorem c2_retries_exhausted_terminal_witness :
    clientConnectionFailed c2State "Connection refused" =
      .ok { c2State with
            connected := false
            retries := some (4 + 1)
            connectDeferred := some (.failed "Connection refused")
            exitDeferred := some .called } ∧
    Except.map (fun t => t.reconnectTimer) (clientConnectionFailed c2State "Connection refused") =
      .ok c2State.reconnectTimer :=
  c2_retries_exhausted_terminal c2State 4 "Connection refused" rfl (by decide) rfl rfl rfl


/-! ### C3: unclean transport loss -/

/-- C3 state: a factory that was Ready, with one counted failure from an
earlier episode and a reconnect timer still pending — the situation in
which the claimed duplicate-timer guard would have to apply. -/
def c3State : AmqpFactory :=
  { AmqpFactory.init cfg1 with
    connected := true
    client := true
    chan := true
    channelReady := .deferredCalled
    queues := ["billing"]
    retries := some 1
    reconnectTimer := some { active := true, delay := 4 }
    exitDeferred := some .pending
    connectDeferred := some .called }

/-- C3 counterexample: on an unclean loss the handler re-attempts the
connection immediately — `connector.connect()` is emitted by this very
call, with no timer having fired — the retry counter is not incremented
(still `1`) and the duplicate-timer guard is not applied (the call
proceeds although an active reconnect timer exists, which stays
pending). -/
theorem c3_unclean_loss_immediate_reconnect_cex :
    clientConnectionLost c3State true
        "Connection to the other side was lost in a non-clean fashion." =
      .ok ({ c3State with
             connected := false
             exitDeferred := some .pending
             connectDeferred := some .pending }, [.connectorConnect]) ∧
    c3State.reconnectTimer = some { active := true, delay := 4 } ∧
    c3State.retries = some 1 :=
  ⟨rfl, rfl, rfl⟩

/-- C3 amended: on an unclean transport loss (a reason not containing
the clean-close message) with a connector available, the factory calls
`reConnect` at once: the state passes through `preConnect` and
`connector.connect()` is emitted immediately; the retry counter and the
reconnect timer are untouched — there is no backoff timer, no counter
increment and no duplicate-timer guard on this path. -/
theorem c3_unclean_loss_reconnects_immediately (s : AmqpFactory) (reason : String)
    (h : closedCleanly reason = false) :
    clientConnectionLost s true reason =
      .ok (preConnect { s with connected := false }, [.connectorConnect]) ∧
    Except.map (fun p => p.1.retries) (clientConnectionLost s true reason) =
      .ok s.retries ∧
    Except.map (fun p => p.1.reconnectTimer) (clientConnectionLost s true reason) =
      .ok s.reconnectTimer := by
  have h1 : clientConnectionLost s true reason =
      .ok (preConnect { s with connected := false }, [.connectorConnect]) := by
    simp [clientConnectionLost, reConnect, h]
  refine ⟨h1, ?_, ?_⟩
  · rw [h1]
    simp [Except.map, preConnect_retries]
  · rw [h1]
    simp [Except.map, preConnect_reconnectTimer]

/-- C3 witness: the amended theorem applied at `c3State` with the
standard Twisted unclean-loss message. -/
theorem c3_unclean_loss_reconnects_immediately_witness :
    clientConnectionLost c3State true
        "Connection to the other side was lost in a non-clean fashion." =
      .ok (preConnect { c3State with connected := false }, [.connectorConnect]) ∧
    Except.map (fun p => p.1.retries)
        (clientConnectionLost c3State true
          "Connection to the other side was lost in a non-clean fashion.") =
      .ok c3State.retries ∧
    Except.map (fun p => p.1.reconnectTimer)
        (clientConnectionLost c3State true
          "Connection to the other side was lost in a non-clean fashion.") =
      .ok c3State.reconnectTimer :=
  c3_unclean_loss_reconnects_immediately c3State
    "Connection to the other side was lost in a non-clean fashion." (by decide)

/-! ### C4: when the queue registry is cleared -/

/-- C4 state: a Ready factory with one declared queue. -/
def c4State : AmqpFactory :=
  { AmqpFactory.init cfg1 with
    connected := true
    client := true
    chan := true
    channelReady := .deferredCalled
    queues := ["billing"]
    retries := some 0
    exitDeferred := some .pending
    connectDeferred := some .called }

/-- C4 counterexample: after an unclean loss — a transition out of Ready
that immediately re-enters the connecting phase — the registry still
holds the previously declared name: `queues` is `["billing"]`, not `[]`,
so the registry is not empty immediately after the transition into
Connecting. -/
theorem c4_registry_survives_loss_cex :
    Except.map (fun p => p.1.queues)
        (clientConnectionLost c4State true
          "Connection to the other side was lost in a non-clean fashion.") =
      .ok ["billing"] ∧
    ["billing"] ≠ ([] : List String) :=
  ⟨rfl, by decide⟩

/-- C4 amended: the registry survives every connection-lost transition
unchanged (`clientConnectionLost` never clears `queues`, for clean and
unclean reasons alike as long as it returns at all), and is cleared only
later, inside the next handshake, when `_got_channel` runs
(`self.queues = []`). -/
theorem c4_registry_cleared_at_got_channel (s : AmqpFactory)
    (hasConnector : Bool) (reason : String)
    (he : s.exitDeferred = some .pending) :
    Except.map (fun p => p.1.queues) (clientConnectionLost s hasConnector reason) =
      .ok s.queues ∧
    (got_channel s).1.queues = [] := by
  constructor
  · by_cases h : closedCleanly reason = false
    · cases hasConnector with
      | true =>
          simp [clientConnectionLost, reConnect, h, Except.map, preConnect_queues]
      | false =>
          simp [clientConnectionLost, reConnect, h, Except.map]
    · simp only [Bool.not_eq_false] at h
      simp [clientConnectionLost, h, he, DeferredState.isCalled, Except.map]
  · rfl

/-- C4 witness: the amended theorem applied at `c4State` with an unclean
reason: the registry still holds `billing` after the loss, and
`_got_channel` yields an empty registry. -/
theorem c4_registry_cleared_at_got_channel_witness :
    Except.map (fun p => p.1.queues)
        (clientConnectionLost c4State true
          "Connection to the other side was lost in a non-clean fashion.") =
      .ok c4State.queues ∧
    (got_channel c4State).1.queues = [] :=
  c4_registry_cleared_at_got_channel c4State true
    "Connection to the other side was lost in a non-clean fashion." rfl


/-! ### C7: what `disconnect` does and does not do -/

/-- C7 state: a factory with a pending reconnect timer and a live
client, on which `disconnect` is called. -/
def c7State : AmqpFactory :=
  { AmqpFactory.init cfg1 with
    client := true
    channelReady := .deferredCalled
    retries := some 2
    reconnectTimer := some { active := true, delay := 8 }
    exitDeferred := some .pending
    connectDeferred := some .called }

/-- C7 counterexample: after `disconnect`, the pending reconnect timer
is still scheduled and still active, and the `connectionRetry` flag is
still `true` — `disconnect` neither cancels the timer nor blocks new
connect attempts (the source method only sets `channelReady = False` and
closes the client). -/
theorem c7_disconnect_keeps_timer_cex :
    (disconnect c7State).1.reconnectTimer = some { active := true, delay := 8 } ∧
    (disconnect c7State).1.connectionRetry = true ∧
    disconnect c7State =
      ({ c7State with channelReady := .pyfalse }, [.clientClose]) :=
  ⟨rfl, rfl, rfl⟩

/-- C7 amended: `disconnect` leaves the reconnect timer and the
`connectionRetry` flag unchanged and only sets `channelReady` to Python
`False` (and closes the client); cancelling the pending timer and
clearing the retry flag is done by `stopConnectionRetrying` — combined
with `disconnect` in `disconnectAndDontRetryToConnect` — and the exit
deferred resolves when the transport then confirms a clean closure. -/
theorem c7_retry_suppression_is_stopConnectionRetrying (s : AmqpFactory)
    (hasConnector : Bool)
    (ht : timerActive s.reconnectTimer = true)
    (he : s.exitDeferred = some .pending) :
    (disconnect s).1.reconnectTimer = s.reconnectTimer ∧
    (disconnect s).1.connectionRetry = s.connectionRetry ∧
    (disconnect s).1.channelReady = .pyfalse ∧
    (disconnectAndDontRetryToConnect s).1.reconnectTimer = none ∧
    (disconnectAndDontRetryToConnect s).1.connectionRetry = false ∧
    clientConnectionLost s hasConnector "Connection was closed cleanly." =
      .ok ({ s with connected := false, exitDeferred := some .called }, []) := by
  refine ⟨?_, ?_, ?_, ?_, ?_, ?_⟩
  · rw [disconnect_fst]
  · rw [disconnect_fst]
  · rw [disconnect_fst]
  · rw [disconnectAndDontRetryToConnect, disconnect_fst]
    simp [stopConnectionRetrying, ht]
  · rw [disconnectAndDontRetryToConnect, disconnect_fst]
    simp [stopConnectionRetrying, ht]
  · have hclean : closedCleanly "Connection was closed cleanly." = true := by decide
    simp [clientConnectionLost, hclean, he, DeferredState.isCalled]

/-- C7 witness: the amended theorem applied at `c7State`. -/
theorem c7_retry_suppression_is_stopConnectionRetrying_witness :
    (disconnect c7State).1.reconnectTimer = c7State.reconnectTimer ∧
    (disconnect c7State).1.connectionRetry = c7State.connectionRetry ∧
    (disconnect c7State).1.channelReady = .pyfalse ∧
    (disconnectAndDontRetryToConnect c7State).1.reconnectTimer = none ∧
    (disconnectAndDontRetryToConnect c7State).1.connectionRetry = false ∧
    clientConnectionLost c7State true "Connection was closed cleanly." =
      .ok ({ c7State with connected := false, exitDeferred := some .called }, []) :=
  c7_retry_suppression_is_stopConnectionRetrying c7State true rfl rfl

/-! ### C8: the channel-ready deferred across reconnects -/

/-- C8 state: a factory whose channel-ready deferred has already fired
during a first session and which is now reconnecting. -/
def c8State : AmqpFactory :=
  { AmqpFactory.init cfg1 with
    client := true
    channelReady := .deferredCalled
    retries := some 1
    exitDeferred := some .pending
    connectDeferred := some .called }

/-- C8 counterexample: on the reconnect path, `preConnect` does not
re-arm the channel-ready deferred (it stays in its already-called
state, so no fresh unresolved deferred exists for the second handshake),
and the second handshake completion `_channel_open` raises
`AlreadyCalledError` instead of resolving a fresh deferred; after
`disconnect` the slot holds Python `False` and `_channel_open` raises
`AttributeError`. -/
theorem c8_channelReady_not_rearmed_cex :
    (preConnect c8State).channelReady = .deferredCalled ∧
    channel_open (preConnect c8State) = .error .alreadyCalledError ∧
    channel_open { c8State with channelReady := .pyfalse } =
      .error (.attributeError .callback) :=
  ⟨rfl, rfl, rfl⟩

/-- C8 amended: `preConnect` arms `channelReady` only when it holds
Python `None` (the freshly constructed factory); in every other state —
pending, already called, or the Python `False` that `disconnect` leaves
behind — it is kept as is, so only a pending deferred is resolved by
`_channel_open` (with the factory as value), an already-called one
raises `AlreadyCalledError`, and `None`/`False` raise
`AttributeError`. -/
theorem c8_channelReady_armed_only_when_none (s : AmqpFactory) :
    (preConnect s).channelReady =
      (match s.channelReady with
       | .pynone => .deferredPending
       | c => c) ∧
    channel_open { s with channelReady := .deferredPending } =
      .ok { s with connected := true, channelReady := .deferredCalled } ∧
    channel_open { s with channelReady := .deferredCalled } =
      .error .alreadyCalledError ∧
    channel_open { s with channelReady := .pyfalse } =
      .error (.attributeError .callback) ∧
    (disconnect s).1.channelReady = .pyfalse := by
  refine ⟨?_, rfl, rfl, rfl, ?_⟩
  · obtain ⟨cfg, rt, cr, cn, ch, cl, chn, qs, ed, cd, rs⟩ := s
    cases ch <;> cases cd <;> try rfl
    all_goals (rename_i d; cases d <;> rfl)
  · rw [disconnect_fst]

/-! ### C9: what `connect` resets -/

/-- C9 state: a factory mid-episode with three counted failures and the
retry flag cleared by `stopConnectionRetrying`. -/
def c9State : AmqpFactory :=
  { AmqpFactory.init cfg1 with
    retries := some 3
    connectionRetry := false
    exitDeferred := some .pending
    connectDeferred := some .pending }

/-- C9 counterexample: `connect` returns with the factory state exactly
unchanged — the retry counter is still `3`, not reset to `0`, and the
retry-allowed flag is still `false`, not set — because `_connect` never
invokes the `preConnect` lambda it passes to its local deferred. -/
theorem c9_connect_resets_nothing_cex :
    connect c9State = .ok (c9State, [.connectTCP], .pending) ∧
    c9State.retries ≠ some 0 ∧
    c9State.connectionRetry ≠ true :=
  ⟨rfl, by decide, by decide⟩

/-- C9 amended: `connect` only issues the TCP connection attempt and
returns the pre-existing `connectDeferred`, changing no factory state at
all; the retry-allowed flag is set by `preConnect` (which `connect`
never calls), and the retry counter `retries` is reset by nothing — not
even `preConnect` touches it. -/
theorem c9_connect_changes_no_state (s : AmqpFactory) (d : DeferredState)
    (hd : s.connectDeferred = some d) :
    connect s = .ok (s, [.connectTCP], d) ∧
    (preConnect s).retries = s.retries ∧
    (preConnect s).connectionRetry = true := by
  refine ⟨?_, preConnect_retries s, preConnect_connectionRetry s⟩
  simp [connect, connectInternal, hd]

/-- C9 witness: the amended theorem applied at `c9State`. -/
theorem c9_connect_changes_no_state_witness :
    connect c9State = .ok (c9State, [.connectTCP], .pending) ∧
    (preConnect c9State).retries = c9State.retries ∧
    (preConnect c9State).connectionRetry = true :=
  c9_connect_changes_no_state c9State .pending rfl

end JasminQueues
